import Mathlib

/-!
Verification development for config50 (src/config50.py and src/stdlib.py):
a small configuration/formula language with a parser (arpeggio PEG grammar),
a tree-walking visitor-evaluator, and a value algebra with an absorbing
`Nothing` sentinel (stdlib.py, class NothingType).

Shallow embedding conventions:
* Python integers become `Int` (arbitrary precision, as in the host).
* Python floats (IEEE double) are modelled as rationals `Rat`; every float
  operation the claims touch (arithmetic on small literals, comparisons,
  truncation) is exact on the values involved, so the model is faithful there.
* Python strings become `String` (both compare lexicographically by code point).
* The `Nothing` singleton becomes the payload-free variant `Value.nothing`;
  Python's `is`-based identity test on the singleton becomes a kind test.
* Fallible operations return `Except Err Value`; the `Err` constructors name
  the Python exception classes the interpreter would raise.
* The evaluator's visitor methods (config50.py, class Config50Visitor) keep
  their source names; each receives the `children` list exactly as arpeggio
  hands it to the method (evaluated sub-results, with operator terminals
  present as plain strings, modelled as `Value.str`).
-/

/-- Runtime values of the language: the variants of spec §3, translated from
the host types the evaluator actually produces (int, float, str, tuple, and
the `NothingType` singleton of stdlib.py). -/
inductive Value where
  | int (n : Int)
  | float (q : Rat)
  | str (s : String)
  | tup (elems : List Value)
  | nothing

/-- Errors: each constructor names the Python exception the source raises at
the corresponding point. `undefinedVariable` is the `KeyError` from
`self.symbols[node.value]` (config50.py line 74); `unknownFunction` the
`KeyError` from `self.functions[children[0]]` (line 81); `reservedKeyword`
the `ArpeggioError("Cannot redefine reserved keyword")` (line 149);
`runtimeError` the `RuntimeError("generator raised StopIteration")` that
PEP 479 (Python >= 3.7) produces when `windows`' internal `next(zip(...))`
call raises `StopIteration` inside the generator body (config50.py line 49).
`outOfFuel` is an artifact of the fuelled embedding of the recursive
evaluator, never reached when the run harness supplies ample fuel. -/
inductive Err where
  | typeError
  | zeroDivisionError
  | attributeError
  | valueError
  | indexError
  | runtimeError
  | undefinedVariable
  | unknownFunction
  | reservedKeyword
  | outOfFuel
  deriving DecidableEq, Repr

/-- Rational reading of a numeric value; `none` for the non-numeric variants.
Used only to state and prove properties, not by the embedded code. -/
def toQ : Value → Option Rat
  | .int n => some (n : Rat)
  | .float q => some q
  | .str _ => none
  | .tup _ => none
  | .nothing => none

mutual
/-- Python `==` on the value variants, which is total (unrelated kinds compare
unequal instead of raising). `NothingType.__eq__` (stdlib.py line 25) is an
identity test against the singleton, hence the kind test here; numbers compare
numerically across int/float; tuples compare length-and-elementwise. -/
def valEq : Value → Value → Bool
  | .nothing, .nothing => true
  | .nothing, _ => false
  | _, .nothing => false
  | .int a, .int b => a == b
  | .int a, .float q => (a : Rat) == q
  | .float q, .int b => q == (b : Rat)
  | .float p, .float q => p == q
  | .str s, .str t => s == t
  | .tup l, .tup m => valEqList l m
  | _, _ => false

/-- Elementwise Python `==` on tuples: lengths must agree and elements must
all compare equal. -/
def valEqList : List Value → List Value → Bool
  | [], [] => true
  | a :: as', b :: bs' => valEq a b && valEqList as' bs'
  | _, _ => false
end

mutual
/-- Python `<` on the value variants: `some r` when the comparison is defined
(with result `r`), `none` when the interpreter would raise `TypeError`.
`NothingType.__lt__`/`__gt__` both return `False` (stdlib.py lines 23-24), and
a numeric/str/tuple left operand faced with the sentinel returns
`NotImplemented`, so CPython dispatches to the sentinel's reflected method:
either way a comparison against `Nothing` is False, never an error. -/
def valLt : Value → Value → Option Bool
  | .nothing, _ => some false
  | _, .nothing => some false
  | .int a, .int b => some (a < b)
  | .int a, .float q => some ((a : Rat) < q)
  | .float q, .int b => some (q < (b : Rat))
  | .float p, .float q => some (p < q)
  | .str s, .str t => some (s < t)
  | .tup l, .tup m => valLtList l m
  | _, _ => none

/-- Python's lexicographic `<` on tuples: skip the longest common prefix
(tested with `==`), then `<` on the first difference — which may itself raise
`TypeError` — and prefixes sort before extensions. -/
def valLtList : List Value → List Value → Option Bool
  | [], [] => some false
  | [], _ :: _ => some true
  | _ :: _, [] => some false
  | a :: as', b :: bs' =>
    if valEq a b then valLtList as' bs' else valLt a b
end

mutual
/-- Python `<=` on the value variants, `none` marking `TypeError`.
`NothingType.__le__`/`__ge__` return `self == other` (stdlib.py lines 27-28),
so `Nothing <= x` and `x <= Nothing` both reduce to the equality test. -/
def valLe : Value → Value → Option Bool
  | .nothing, x => some (valEq .nothing x)
  | x, .nothing => some (valEq .nothing x)
  | .int a, .int b => some (a ≤ b)
  | .int a, .float q => some ((a : Rat) ≤ q)
  | .float q, .int b => some (q ≤ (b : Rat))
  | .float p, .float q => some (p ≤ q)
  | .str s, .str t => some (s ≤ t)
  | .tup l, .tup m => valLeList l m
  | _, _ => none

/-- Python's lexicographic `<=` on tuples (ties by equality, then the first
difference decides, prefixes weakly precede). -/
def valLeList : List Value → List Value → Option Bool
  | [], _ => some true
  | _ :: _, [] => some false
  | a :: as', b :: bs' =>
    if valEq a b then valLeList as' bs' else valLt a b
end

/-- Python `>`: by CPython's dispatch (forward `__gt__`, then the reflected
`__lt__`) this coincides, on every pair of our variants, with `<` of the
swapped operands — including the sentinel, whose `__gt__` is constantly
`False` just as `valLt _ nothing` is. -/
def valGt (a b : Value) : Option Bool := valLt b a

/-- Python `>=`: likewise the swapped `<=`, including the sentinel's
`__ge__ = (self == other)`. -/
def valGe (a b : Value) : Option Bool := valLe b a

/-- Python `!=`: the default negation of `==`; `NothingType.__ne__`
(stdlib.py line 26) is written as exactly that negation. -/
def valNe (a b : Value) : Bool := ! valEq a b

/-- Python truthiness of a value: `NothingType.__bool__` is `False`
(stdlib.py line 29); numbers are truthy iff nonzero, sequences iff nonempty. -/
def pyTruthy : Value → Bool
  | .int n => n != 0
  | .float q => q != 0
  | .str s => s != ""
  | .tup l => !l.isEmpty
  | .nothing => false

/-- Kind test modelling Python's `x is Nothing` on the enforced singleton. -/
def isNothingV : Value → Bool
  | .nothing => true
  | _ => false

/-- Python sequence repetition for strings: `s * n` is `n` concatenated
copies, and the empty string when `n <= 0`. -/
def strRepeat (n : Int) (s : String) : String :=
  String.join (List.replicate n.toNat s)

/-- Python sequence repetition for tuples. -/
def tupRepeat (n : Int) (l : List Value) : List Value :=
  (List.replicate n.toNat l).flatten

/-- Python binary `+` on the value variants. The two sentinel cases model
CPython's dispatch: `NothingType.__add__` returns the sentinel (stdlib.py
`_class_init`), and when the left operand's `__add__` returns
`NotImplemented` against the sentinel, the reflected `__radd__` does too. -/
def addV : Value → Value → Except Err Value
  | .nothing, _ => .ok .nothing
  | _, .nothing => .ok .nothing
  | .int a, .int b => .ok (.int (a + b))
  | .int a, .float q => .ok (.float ((a : Rat) + q))
  | .float q, .int b => .ok (.float (q + (b : Rat)))
  | .float p, .float q => .ok (.float (p + q))
  | .str s, .str t => .ok (.str (s ++ t))
  | .tup l, .tup m => .ok (.tup (l ++ m))
  | _, _ => .error .typeError

/-- Python binary `-`: numeric only, with the sentinel absorbing via
`__sub__`/`__rsub__`. -/
def subV : Value → Value → Except Err Value
  | .nothing, _ => .ok .nothing
  | _, .nothing => .ok .nothing
  | .int a, .int b => .ok (.int (a - b))
  | .int a, .float q => .ok (.float ((a : Rat) - q))
  | .float q, .int b => .ok (.float (q - (b : Rat)))
  | .float p, .float q => .ok (.float (p - q))
  | _, _ => .error .typeError

/-- Python binary `*`: numeric multiplication, sequence repetition when one
operand is a str/tuple and the other an int, and the sentinel absorbing via
`__mul__`/`__rmul__`. -/
def mulV : Value → Value → Except Err Value
  | .nothing, _ => .ok .nothing
  | _, .nothing => .ok .nothing
  | .int a, .int b => .ok (.int (a * b))
  | .int a, .float q => .ok (.float ((a : Rat) * q))
  | .float q, .int b => .ok (.float (q * (b : Rat)))
  | .float p, .float q => .ok (.float (p * q))
  | .str s, .int n => .ok (.str (strRepeat n s))
  | .int n, .str s => .ok (.str (strRepeat n s))
  | .tup l, .int n => .ok (.tup (tupRepeat n l))
  | .int n, .tup l => .ok (.tup (tupRepeat n l))
  | _, _ => .error .typeError

/-- Python `/` (true division): always a float on numeric operands,
`ZeroDivisionError` on a numeric zero divisor. The sentinel cases come first
because CPython never reaches the numeric code for them — `NothingType`'s
`__truediv__`/`__rtruediv__` return the sentinel — so `Nothing / 0` is the
sentinel and not an error. -/
def divV : Value → Value → Except Err Value
  | .nothing, _ => .ok .nothing
  | _, .nothing => .ok .nothing
  | .int a, .int b =>
    if b = 0 then .error .zeroDivisionError
    else .ok (.float ((a : Rat) / (b : Rat)))
  | .int a, .float q =>
    if q = 0 then .error .zeroDivisionError else .ok (.float ((a : Rat) / q))
  | .float q, .int b =>
    if b = 0 then .error .zeroDivisionError else .ok (.float (q / (b : Rat)))
  | .float p, .float q =>
    if q = 0 then .error .zeroDivisionError else .ok (.float (p / q))
  | _, _ => .error .typeError

/-- Python `//` (floor division): floors toward negative infinity
(`Int.fdiv`), stays int on int/int and is a float when a float is involved;
`ZeroDivisionError` on a numeric zero divisor; sentinel absorbs first, as in
`divV`. -/
def fdivV : Value → Value → Except Err Value
  | .nothing, _ => .ok .nothing
  | _, .nothing => .ok .nothing
  | .int a, .int b =>
    if b = 0 then .error .zeroDivisionError else .ok (.int (Int.fdiv a b))
  | .int a, .float q =>
    if q = 0 then .error .zeroDivisionError
    else .ok (.float (((a : Rat) / q).floor : Rat))
  | .float q, .int b =>
    if b = 0 then .error .zeroDivisionError
    else .ok (.float ((q / (b : Rat)).floor : Rat))
  | .float p, .float q =>
    if q = 0 then .error .zeroDivisionError
    else .ok (.float ((p / q).floor : Rat))
  | _, _ => .error .typeError

/-- One step of `windows(items, size, jump)` (config50.py lines 39-49) from a
given start index, fully consumed: returns the yielded full windows plus a
flag telling whether, instead of terminating, the generator raised. The
generator body computes `next(zip(*([islice(items, start, None)] * size)))`;
when fewer than `size` items remain past `start`, that `next` call raises
`StopIteration`, which inside a generator body is converted to
`RuntimeError("generator raised StopIteration")` by PEP 479 on Python >= 3.7.
(The function's own docstring — `list(windows("abcdefg", 3, 2))` yields
`["abc", "cde", "efg"]` — documents the pre-3.7 behaviour, where the stray
`StopIteration` merely ended the generator after the last full window.)
`start` advances by `jump` as in `range(0, len(items), jump)`; the fuel
argument (first) merely bounds the number of loop iterations and any value
of at least `items.length + 1` is ample for a positive `jump`. -/
def windowsGo (items : List α) (size jump : Nat) : Nat → Nat → List (List α) × Bool
  | 0, _ => ([], false)
  | fuel + 1, start =>
    if start < items.length then
      if items.length - start < size then ([], true)
      else
        let out := windowsGo items size jump fuel (start + jump)
        ((items.drop start).take size :: out.1, out.2)
    else ([], false)

/-- All windows `windows(items, size, jump)` yields, paired with the PEP 479
raise flag (see `windowsGo`). -/
def windowsPy (items : List α) (size jump : Nat) : List (List α) × Bool :=
  windowsGo items size jump (items.length + 1) 0

/-- Comparison operators as the grammar's literal strings, in the order the
six `if` tests of `visit_comparison` check them. -/
def cmpOpStrings : List String := ["<", ">", "==", "!=", "<=", ">="]

/-- The comparison one operator string denotes, as `visit_comparison` applies
it (Python's rich comparison of the two window endpoints). -/
def applyCmpStr (op : String) (a b : Value) : Option Bool :=
  if op = "<" then valLt a b
  else if op = ">" then valGt a b
  else if op = "==" then some (valEq a b)
  else if op = "!=" then some (valNe a b)
  else if op = "<=" then valLe a b
  else valGe a b

/-- Consumption of the window stream by the `for` loop of `visit_comparison`
(config50.py lines 133-139): for each window, the first of the six `if` tests
whose operator string equals `window[1]` evaluates its comparison; a false
comparison returns the integer 0 at once (the generator is abandoned before
it can raise); a true one falls through to the next window; a window whose
middle element is none of the six strings falls through all tests. When the
windows are exhausted the loop ends: if the generator's next resumption
raises (the flag), that `RuntimeError` propagates; otherwise `return 1`. -/
def cmpConsume : List (List Value) → Bool → Except Err Value
  | [], raised => if raised then .error .runtimeError else .ok (.int 1)
  | w :: ws, raised =>
    match w with
    | [a, op, b] =>
      match cmpOpStrings.find? (fun s => valEq op (.str s)) with
      | none => cmpConsume ws raised
      | some s =>
        match applyCmpStr s a b with
        | none => .error .typeError
        | some false => .ok (.int 0)
        | some true => cmpConsume ws raised
    | _ => cmpConsume ws raised

/-- Model of `visit_comparison` (config50.py lines 125-140). `children` is
the evaluated child list of a comparison node: operand values interleaved
with the operator terminals, which arpeggio passes through as plain strings
(here `Value.str`), e.g. `[7, "<", 6, "<", 5]` as the source comment shows.
A single child is returned unchanged; otherwise the window iterator
`windows(children, 3, 2)` drives the transitive triple checks. -/
def visit_comparison (children : List Value) : Except Err Value :=
  match children with
  | [c] => .ok c
  | _ =>
    let out := windowsPy children 3 2
    cmpConsume out.1 out.2

/-- Consumption of `windows(children[1:], 2, 2)` by the `for` loop of
`visit_term` (config50.py lines 106-112): per window, `//` applies floor
division, `/` true division, and anything else multiplies (the source's
`else` branch). An arithmetic error aborts; reaching the end of an
even-length tail never trips PEP 479 because every window is full, but the
flag is honoured here all the same for faithfulness. -/
def termConsume (acc : Value) : List (List Value) → Bool → Except Err Value
  | [], raised => if raised then .error .runtimeError else .ok acc
  | w :: ws, raised =>
    match w with
    | [op, operand] =>
      let step :=
        if valEq op (.str "//") then fdivV acc operand
        else if valEq op (.str "/") then divV acc operand
        else mulV acc operand
      match step with
      | .error e => .error e
      | .ok acc' => termConsume acc' ws raised
    | _ => termConsume acc ws raised

/-- Model of `visit_term` (config50.py lines 103-113): start from
`children[0]` and fold the `(operator, operand)` windows of the tail.
An empty children list would be the source's `children[0]` raising
`IndexError`; the parser never produces one. -/
def visit_term (children : List Value) : Except Err Value :=
  match children with
  | [] => .error .indexError
  | c :: rest =>
    let out := windowsPy rest 2 2
    termConsume c out.1 out.2

/-- Consumption of `windows(children[1:], 2, 2)` by the `for` loop of
`visit_arith` (config50.py lines 118-122): `+` adds, anything else subtracts
(the source's `else` branch). -/
def arithConsume (acc : Value) : List (List Value) → Bool → Except Err Value
  | [], raised => if raised then .error .runtimeError else .ok acc
  | w :: ws, raised =>
    match w with
    | [op, operand] =>
      let step :=
        if valEq op (.str "+") then addV acc operand
        else subV acc operand
      match step with
      | .error e => .error e
      | .ok acc' => arithConsume acc' ws raised
    | _ => arithConsume acc ws raised

/-- Model of `visit_arith` (config50.py lines 115-123). -/
def visit_arith (children : List Value) : Except Err Value :=
  match children with
  | [] => .error .indexError
  | c :: rest =>
    let out := windowsPy rest 2 2
    arithConsume c out.1 out.2

/-- The optional unary sign of a factor, as the terminal string the grammar
matched. -/
inductive Sign where
  | plusS
  | minusS
  deriving DecidableEq, Repr

/-- Model of `visit_factor` (config50.py lines 93-98): no sign returns the
operand unchanged; otherwise `sign` is `-1` exactly when the first child is
the string `"-"`, and the result is `children[-1] * sign` — operand on the
left, so a string or tuple operand goes through sequence repetition. -/
def visit_factor (sign : Option Sign) (operand : Value) : Except Err Value :=
  match sign with
  | none => .ok operand
  | some s => mulV operand (.int (if s = .minusS then -1 else 1))

/-- Model of `visit_tuple_` (config50.py lines 86-91). `children` holds the
evaluated element values, followed by the literal string `","` when the
optional trailing comma was present (the separator commas are suppressed;
the source comment notes `"(1,)"` yields children `[1, ","]`). The method
pops the last child when it `==`-compares equal to `","` — note this is a
value comparison, so it also pops a final element that happens to be that
one-character string — and returns the tuple of what remains. -/
def visit_tuple_ (children : List Value) : Value :=
  match children.getLast? with
  | some lastc => if valEq lastc (.str ",") then .tup children.dropLast else .tup children
  | none => .tup children

/-- The symbol table: Python dict from variable name to stored value, where
the stored value is `Option Value` because `visit_assignment` stores the
host's `None` (here `none`) in place of the sentinel "for interoperability
with other Python code" (config50.py line 151). Insertion conses; lookup
takes the first binding, giving dict overwrite semantics. -/
def SymTable := List (String × Option Value)

/-- The visitor's `reserved_keywords` class attribute (config50.py line 53). -/
def reserved_keywords : List String := ["Nothing"]

/-- Model of `visit_identifier` (config50.py lines 73-78): a missing name is
the `KeyError` of `self.symbols[node.value]`; a stored `None` is translated
back to the sentinel; anything else is returned as stored. -/
def visit_identifier (name : String) (symbols : SymTable) : Except Err Value :=
  match List.lookup name symbols with
  | none => .error .undefinedVariable
  | some none => .ok .nothing
  | some (some v) => .ok v

/-- Model of `visit_assignment` (config50.py lines 142-153) on an
already-evaluated right-hand value. With no `name =` prefix the value passes
through. With a name, a reserved keyword raises before the table is touched;
otherwise the binding is stored (the sentinel as `None`) and the value
returned. The table is returned alongside so the claims can speak about the
state after a failed assignment. -/
def visit_assignment (name : Option String) (v : Value) (symbols : SymTable) :
    Except Err Value × SymTable :=
  match name with
  | none => (.ok v, symbols)
  | some n =>
    if n ∈ reserved_keywords then (.error .reservedKeyword, symbols)
    else (.ok v, (n, if isNothingV v then none else some v) :: symbols)

/-- Truncation toward zero, as Python's `float.__int__` does. -/
def truncQ (q : Rat) : Int := q.num / (q.den : Int)

/-- Model of the registry entry `"int": lambda x: x.__int__()` (stdlib.py
line 88). `int.__int__` and `float.__int__` exist and return the (truncated)
integer; `NothingType.__int__` is installed by `_class_init` and returns the
sentinel; `str` and `tuple` have no `__int__` attribute at all, so the
attribute access raises `AttributeError` — the lambda deliberately bypasses
the `int(...)` constructor (which could parse a string) to let the sentinel
pass through. -/
def intFn : Value → Except Err Value
  | .int n => .ok (.int n)
  | .float q => .ok (.int (truncQ q))
  | .nothing => .ok .nothing
  | .str _ => .error .attributeError
  | .tup _ => .error .attributeError

/-- Model of the registry entry `"float": lambda x: x.__float__()` (stdlib.py
line 89): analogous to `intFn`; `str` and `tuple` lack `__float__`. -/
def floatFn : Value → Except Err Value
  | .int n => .ok (.float (n : Rat))
  | .float q => .ok (.float q)
  | .nothing => .ok .nothing
  | .str _ => .error .attributeError
  | .tup _ => .error .attributeError

mutual
/-- The text `x.__str__()` produces for a non-sentinel value. The precise
digits and quoting are the host's; this model fixes one concrete rendering
(no claim depends on the text, only on totality and on the sentinel case).
The sentinel case here is unreachable from `strFn`, which intercepts it; the
text given is the sentinel's `__repr__`. -/
def pyStr : Value → String
  | .int n => toString n
  | .float q => toString q
  | .str s => s
  | .tup l => "(" ++ pyStrList l ++ ")"
  | .nothing => "Nothing"

/-- Comma-separated rendering of tuple elements for `pyStr`. -/
def pyStrList : List Value → String
  | [] => ""
  | [v] => pyStr v
  | v :: rest => pyStr v ++ ", " ++ pyStrList rest
end

/-- Model of the registry entry `"str": lambda x: x.__str__()` (stdlib.py
line 90). `object.__str__` makes the call total on every variant, and
`NothingType.__str__` (installed by `_class_init`) returns the sentinel
object itself rather than text. -/
def strFn : Value → Value
  | .nothing => .nothing
  | v => .str (pyStr v)

/-- The unpacking `score, weight = arg if isinstance(arg, tuple) else
(arg, 1)` of `avg` (stdlib.py line 61): a tuple argument must have exactly
two elements (otherwise `ValueError`), anything else pairs with weight 1. -/
def avgUnpack : Value → Except Err (Value × Value)
  | .tup [s, w] => .ok (s, w)
  | .tup _ => .error .valueError
  | v => .ok (v, .int 1)

/-- The loop of `avg` (stdlib.py lines 60-64) with its two accumulators,
which start as Python ints `0` and evolve by the host's `+=`/`*` (modelled by
`addV`/`mulV`, so a float weight turns the accumulator float and a sentinel
weight absorbs it). An entry whose score `is Nothing` is skipped entirely.
After the loop: `numerator / denominator if denominator else Nothing`, the
truthiness test guarding the division. -/
def avgGo : List Value → Value → Value → Except Err Value
  | [], numerator, denominator =>
    if pyTruthy denominator then divV numerator denominator else .ok .nothing
  | arg :: rest, numerator, denominator =>
    match avgUnpack arg with
    | .error e => .error e
    | .ok (score, weight) =>
      if isNothingV score then avgGo rest numerator denominator
      else
        match addV denominator weight with
        | .error e => .error e
        | .ok den' =>
          match mulV score weight with
          | .error e => .error e
          | .ok prod =>
            match addV numerator prod with
            | .error e => .error e
            | .ok num' => avgGo rest num' den'

/-- Model of `avg(*args)` (stdlib.py lines 57-65). -/
def avg (args : List Value) : Except Err Value :=
  avgGo args (.int 0) (.int 0)

/-- Decision of success of an evaluation step, for stating when an operation
"never raises" / "fails". -/
def isOkE : Except Err Value → Bool
  | .ok _ => true
  | .error _ => false

/-- Scope predicate: the value is numeric (int/float) or the sentinel. -/
def numOrNothing : Value → Bool
  | .int _ => true
  | .float _ => true
  | .nothing => true
  | _ => false

/-- The value is a numeric zero (Python `0` or `0.0`). -/
def isNumZero : Value → Bool
  | .int n => n == 0
  | .float q => q == 0
  | _ => false

theorem addV_nothing_left (b : Value) : addV .nothing b = .ok .nothing := by
  cases b <;> rfl

theorem addV_nothing_right (a : Value) : addV a .nothing = .ok .nothing := by
  cases a <;> rfl

theorem subV_nothing_left (b : Value) : subV .nothing b = .ok .nothing := by
  cases b <;> rfl

theorem subV_nothing_right (a : Value) : subV a .nothing = .ok .nothing := by
  cases a <;> rfl

theorem mulV_nothing_left (b : Value) : mulV .nothing b = .ok .nothing := by
  cases b <;> rfl

theorem mulV_nothing_right (a : Value) : mulV a .nothing = .ok .nothing := by
  cases a <;> rfl

theorem divV_nothing_left (b : Value) : divV .nothing b = .ok .nothing := by
  cases b <;> rfl

theorem divV_nothing_right (a : Value) : divV a .nothing = .ok .nothing := by
  cases a <;> rfl

theorem fdivV_nothing_left (b : Value) : fdivV .nothing b = .ok .nothing := by
  cases b <;> rfl

theorem fdivV_nothing_right (a : Value) : fdivV a .nothing = .ok .nothing := by
  cases a <;> rfl

/-- A two-operand term node applies exactly the operator its window holds:
`//` floor division, `/` true division, anything else multiplication. -/
theorem visit_term_pair (a : Value) (op : String) (b : Value) :
    visit_term [a, .str op, b] =
      if op = "//" then fdivV a b else if op = "/" then divV a b else mulV a b := by
  have h : visit_term [a, .str op, b] =
      (match (if op == "//" then fdivV a b else if op == "/" then divV a b
              else mulV a b : Except Err Value) with
       | .error e => .error e
       | .ok c => (.ok c : Except Err Value)) := rfl
  rw [h]
  by_cases h1 : op = "//" <;> by_cases h2 : op = "/" <;>
    simp [h1, h2] <;>
    first
      | (cases fdivV a b <;> rfl)
      | (cases divV a b <;> rfl)
      | (cases mulV a b <;> rfl)

/-- A two-operand arith node applies `+` for the `"+"` window and `-` for
anything else. -/
theorem visit_arith_pair (a : Value) (op : String) (b : Value) :
    visit_arith [a, .str op, b] =
      if op = "+" then addV a b else subV a b := by
  have h : visit_arith [a, .str op, b] =
      (match (if op == "+" then addV a b else subV a b : Except Err Value) with
       | .error e => .error e
       | .ok c => (.ok c : Except Err Value)) := rfl
  rw [h]
  by_cases h1 : op = "+" <;>
    simp [h1] <;>
    first
      | (cases addV a b <;> rfl)
      | (cases subV a b <;> rfl)

/-- C1. The claim reads: with N>1 operands chained by N-1 comparison
operators, the overlapping triples are checked left to right, the first false
triple short-circuits to integer 0, and if every triple holds the chain
yields integer 1 (`1 < 2 < 3` gives 1, `1 < 2 < 1` gives 0, `5 == 5 != 4`
gives 1). The code contradicts this and its own documentation on any Python
with PEP 479 in force (>= 3.7): `windows(children, 3, 2)` always reaches a
final start index with a single remaining element, where `next(zip(...))`
raises `StopIteration` and the interpreter turns it into `RuntimeError` —
so every chain whose examined triples all hold aborts instead of yielding 1,
while a chain with a false triple still short-circuits to 0 before the
generator can raise. This theorem evaluates the model at the claim's own
examples: the two all-true chains raise, the false chain returns 0. -/
theorem c1_chained_comparison_pep479 :
    visit_comparison [.int 1, .str "<", .int 2, .str "<", .int 3]
      = .error .runtimeError ∧
    visit_comparison [.int 1, .str "<", .int 2, .str "<", .int 1]
      = .ok (.int 0) ∧
    visit_comparison [.int 5, .str "==", .int 5, .str "!=", .int 4]
      = .error .runtimeError ∧
    visit_comparison [.int 1, .str "<", .int 2] = .error .runtimeError ∧
    visit_comparison [.int 2, .str "<", .int 1] = .ok (.int 0) :=
  ⟨rfl, rfl, rfl, rfl, rfl⟩

/-- C2. Every binary arithmetic operation (`+`, `-`, `*`, `/`, `//`) with at
least one sentinel operand evaluates to the sentinel and never raises — the
sentinel's magic methods bypass the numeric code entirely, so even a zero
divisor on the other side cannot raise — and unary `+`/`-` on the sentinel
(implemented by `visit_factor` as multiplication by ±1) is the sentinel. -/
theorem c2_nothing_absorbing (a b : Value)
    (h : a = Value.nothing ∨ b = Value.nothing) :
    visit_arith [a, .str "+", b] = .ok .nothing ∧
    visit_arith [a, .str "-", b] = .ok .nothing ∧
    visit_term [a, .str "*", b] = .ok .nothing ∧
    visit_term [a, .str "/", b] = .ok .nothing ∧
    visit_term [a, .str "//", b] = .ok .nothing ∧
    visit_factor (some .plusS) Value.nothing = .ok .nothing ∧
    visit_factor (some .minusS) Value.nothing = .ok .nothing := by
  rcases h with rfl | rfl <;>
    simp [visit_arith_pair, visit_term_pair, visit_factor,
      addV_nothing_left, addV_nothing_right, subV_nothing_left,
      subV_nothing_right, mulV_nothing_left, mulV_nothing_right,
      divV_nothing_left, divV_nothing_right, fdivV_nothing_left,
      fdivV_nothing_right]

/-- Witness for C2 at the concrete operands `Nothing` and `0`, so that the
never-raising division cases `Nothing / 0`, `Nothing // 0` are among the
instantiated conclusions. -/
theorem c2_nothing_absorbing_witness :
    (Value.nothing = Value.nothing ∨ Value.int 0 = Value.nothing) ∧
    (visit_arith [Value.nothing, .str "+", .int 0] = .ok .nothing ∧
     visit_arith [Value.nothing, .str "-", .int 0] = .ok .nothing ∧
     visit_term [Value.nothing, .str "*", .int 0] = .ok .nothing ∧
     visit_term [Value.nothing, .str "/", .int 0] = .ok .nothing ∧
     visit_term [Value.nothing, .str "//", .int 0] = .ok .nothing ∧
     visit_factor (some .plusS) Value.nothing = .ok .nothing ∧
     visit_factor (some .minusS) Value.nothing = .ok .nothing) :=
  ⟨Or.inl rfl, c2_nothing_absorbing Value.nothing (.int 0) (Or.inl rfl)⟩

/-- C5. Assigning to the reserved literal name `Nothing` fails with the
reserved-keyword error for every prior table state and every right-hand
value, and the returned table is exactly the incoming one — the raise happens
before `self.symbols` is touched. -/
theorem c5_reserved_keyword_assignment (st : SymTable) (v : Value) :
    visit_assignment (some "Nothing") v st = (.error .reservedKeyword, st) := by
  simp [visit_assignment, reserved_keywords]

/-- C6. After `x = Nothing` (for any assignable name `x`, i.e. not the
reserved literal itself) the table holds a binding for `x` — the stored host
`None`, so a bound sentinel is distinguishable from an absent name — and
looking `x` up yields the sentinel; looking up any unbound name fails with
the undefined-variable error (the `KeyError` of the symbols dict). -/
theorem c6_nothing_binding_vs_unassigned (st : SymTable) (x : String)
    (hx : x ≠ "Nothing") :
    (visit_assignment (some x) Value.nothing st).1 = .ok .nothing ∧
    List.lookup x (visit_assignment (some x) Value.nothing st).2 = some none ∧
    visit_identifier x (visit_assignment (some x) Value.nothing st).2
      = .ok .nothing ∧
    (∀ (st2 : SymTable) (y : String), List.lookup y st2 = none →
      visit_identifier y st2 = .error .undefinedVariable) := by
  have hmem : x ∉ reserved_keywords := by simp [reserved_keywords, hx]
  refine ⟨?_, ?_, ?_, ?_⟩
  · simp [visit_assignment, hmem, isNothingV]
  · simp [visit_assignment, hmem, isNothingV, List.lookup]
  · simp [visit_identifier, visit_assignment, hmem, isNothingV, List.lookup]
  · intro st2 y hy
    simp [visit_identifier, hy]

/-- Witness for C6 at the concrete name `x` over the empty table, and the
unbound name `y`. -/
theorem c6_nothing_binding_vs_unassigned_witness :
    ("x" ≠ "Nothing") ∧
    ((visit_assignment (some "x") Value.nothing []).1 = .ok .nothing ∧
     List.lookup "x" (visit_assignment (some "x") Value.nothing []).2
       = some none ∧
     visit_identifier "x" (visit_assignment (some "x") Value.nothing []).2
       = .ok .nothing ∧
     (∀ (st2 : SymTable) (y : String), List.lookup y st2 = none →
       visit_identifier y st2 = .error .undefinedVariable)) :=
  ⟨by decide, c6_nothing_binding_vs_unassigned [] "x" (by decide)⟩

/-- C7. Over numeric-or-sentinel operands, `/` and `//` fail — and fail with
the arithmetic fault `ZeroDivisionError` — exactly when the divisor is a
numeric zero and the dividend is not the sentinel (a sentinel divisor is
itself not a numeric zero, so "neither operand is Nothing" is equivalent);
`1 / 0` aborts while `Nothing // 2` is the sentinel without error. -/
theorem c7_division_fails_iff_zero_divisor (a b : Value)
    (ha : numOrNothing a = true) (hb : numOrNothing b = true) :
    (visit_term [a, .str "/", b] = .error .zeroDivisionError
      ↔ (isNumZero b = true ∧ a ≠ .nothing)) ∧
    (visit_term [a, .str "//", b] = .error .zeroDivisionError
      ↔ (isNumZero b = true ∧ a ≠ .nothing)) ∧
    (isOkE (visit_term [a, .str "/", b]) = false
      ↔ (isNumZero b = true ∧ a ≠ .nothing)) ∧
    (isOkE (visit_term [a, .str "//", b]) = false
      ↔ (isNumZero b = true ∧ a ≠ .nothing)) := by
  rw [visit_term_pair, visit_term_pair]
  cases a <;> cases b <;>
    simp_all [divV, fdivV, isNumZero, isOkE, numOrNothing] <;>
    split_ifs <;> simp_all

/-- Witness for C7 at the failing division `1 / 0` and its floor twin. -/
theorem c7_division_fails_iff_zero_divisor_witness :
    (numOrNothing (Value.int 1) = true) ∧ (numOrNothing (Value.int 0) = true) ∧
    ((visit_term [Value.int 1, .str "/", .int 0] = .error .zeroDivisionError
       ↔ (isNumZero (Value.int 0) = true ∧ Value.int 1 ≠ .nothing)) ∧
     (visit_term [Value.int 1, .str "//", .int 0] = .error .zeroDivisionError
       ↔ (isNumZero (Value.int 0) = true ∧ Value.int 1 ≠ .nothing)) ∧
     (isOkE (visit_term [Value.int 1, .str "/", .int 0]) = false
       ↔ (isNumZero (Value.int 0) = true ∧ Value.int 1 ≠ .nothing)) ∧
     (isOkE (visit_term [Value.int 1, .str "//", .int 0]) = false
       ↔ (isNumZero (Value.int 0) = true ∧ Value.int 1 ≠ .nothing))) :=
  ⟨rfl, rfl, c7_division_fails_iff_zero_divisor (.int 1) (.int 0) rfl rfl⟩

/-- C10. Unary minus on a string or tuple does not fail: `visit_factor`
multiplies the operand by -1, which is Python sequence repetition, yielding
the empty string / empty tuple; unary plus multiplies by 1 and returns the
operand unchanged. -/
theorem c10_unary_sign_on_sequences (s : String) (l : List Value) :
    visit_factor (some .minusS) (.str s) = .ok (.str "") ∧
    visit_factor (some .minusS) (.tup l) = .ok (.tup []) ∧
    visit_factor (some .plusS) (.str s) = .ok (.str s) ∧
    visit_factor (some .plusS) (.tup l) = .ok (.tup l) := by
  refine ⟨?_, ?_, ?_, ?_⟩ <;>
    simp [visit_factor, mulV, strRepeat, tupRepeat, String.join,
      List.replicate]

/-- C3 counterexample. The claim states every conversion is defined and
never raises on every variant; but `int("a")` — the registry lambda calls
`"a".__int__()` and `str` has no `__int__` attribute — raises
`AttributeError`, as does `float` on a tuple. -/
theorem c3_conversions_counterexample :
    intFn (.str "a") = .error .attributeError ∧
    isOkE (intFn (.str "a")) = false ∧
    floatFn (.tup []) = .error .attributeError ∧
    isOkE (floatFn (.tup [])) = false :=
  ⟨rfl, rfl, rfl, rfl⟩

/-- C3 as amended: `int` and `float` are defined and never raise on the
numeric variants and the sentinel — returning the sentinel on the sentinel —
but raise `AttributeError` on String and Tuple (which lack
`__int__`/`__float__`); `str` alone is defined on every variant, returning
the sentinel on the sentinel. -/
theorem c3_conversions_amended :
    (∀ n : Int, intFn (.int n) = .ok (.int n)) ∧
    (∀ q : Rat, intFn (.float q) = .ok (.int (truncQ q))) ∧
    intFn .nothing = .ok .nothing ∧
    (∀ s : String, intFn (.str s) = .error .attributeError) ∧
    (∀ l : List Value, intFn (.tup l) = .error .attributeError) ∧
    (∀ n : Int, floatFn (.int n) = .ok (.float (n : Rat))) ∧
    (∀ q : Rat, floatFn (.float q) = .ok (.float q)) ∧
    floatFn .nothing = .ok .nothing ∧
    (∀ s : String, floatFn (.str s) = .error .attributeError) ∧
    (∀ l : List Value, floatFn (.tup l) = .error .attributeError) ∧
    strFn .nothing = .nothing ∧
    (∀ n : Int, strFn (.int n) = .str (pyStr (.int n))) ∧
    (∀ q : Rat, strFn (.float q) = .str (pyStr (.float q))) ∧
    (∀ s : String, strFn (.str s) = .str s) ∧
    (∀ l : List Value, strFn (.tup l) = .str (pyStr (.tup l))) := by
  refine ⟨fun n => rfl, fun q => rfl, rfl, fun s => rfl, fun l => rfl,
    fun n => rfl, fun q => rfl, rfl, fun s => rfl, fun l => rfl,
    rfl, fun n => rfl, fun q => rfl, fun s => rfl, fun l => rfl⟩

/-- A `\w` word character, restricted to ASCII: Python's `re` under the
default Unicode semantics also matches non-ASCII word characters, but every
character the claims discuss is ASCII, where the two readings agree
(`Char.isAlpha`/`Char.isDigit` are exactly the ASCII letter/digit tests). -/
def wordCharW (c : Char) : Bool :=
  c.isAlpha || c.isDigit || c = '_'

/-- Full-token match of the lexer's identifier pattern
`WORD = r"[A-z]\w*"` (config50.py lines 16 and 22): a leading character in
the ASCII range between `A` and `z` — the letters plus the six punctuation
characters that sit between `Z` and `a` — followed by word characters. -/
def matchWORD (s : String) : Bool :=
  match s.data with
  | [] => false
  | c :: cs => ('A' ≤ c && c ≤ 'z') && cs.all wordCharW

/-- The character set the claim asserts, written from the claim's regex
`[A-Za-z][A-Za-z0-9_.-]*`: a leading ASCII letter, then letters, digits,
underscore, dot or hyphen. -/
def claimIdentAccept (s : String) : Bool :=
  match s.data with
  | [] => false
  | c :: cs =>
    c.isAlpha && cs.all (fun d => d.isAlpha || d.isDigit || d = '_' || d = '.' || d = '-')

/-- C4 counterexample. The lexer's actual pattern `[A-z]\w*` disagrees with
the claimed `[A-Za-z][A-Za-z0-9_.-]*` in both directions: `\w` matches
neither dot nor hyphen, so `a.b-c` is not one identifier token (it would lex
as the identifier `a` followed by unparseable text), while `[A-z]` admits a
leading underscore the claim's set rejects. -/
theorem c4_identifier_counterexample :
    matchWORD "a.b-c" = false ∧
    claimIdentAccept "a.b-c" = true ∧
    matchWORD "_x" = true ∧
    claimIdentAccept "_x" = false ∧
    matchWORD "a.b-c" ≠ claimIdentAccept "a.b-c" := by
  refine ⟨by decide, by decide, by decide, by decide, by decide⟩

/-- C4 as amended: an identifier token is exactly a leading character in the
ASCII range `A`-`z` (the letters together with `[`, `\`, `]`, `^`, `_` and
the backquote) followed by word characters (letters, digits, underscore);
dot and hyphen are not part of the token set. -/
theorem c4_identifier_amended (s : String) :
    matchWORD s = true ↔
      (∃ c cs, s.data = c :: cs ∧ 'A' ≤ c ∧ c ≤ 'z' ∧
        cs.Forall (fun d => d.isAlpha = true ∨ d.isDigit = true ∨ d = '_')) := by
  obtain ⟨data⟩ := s
  match data with
  | [] => simp [matchWORD]
  | c :: cs =>
    simp only [matchWORD, List.forall_iff_forall_mem, Bool.and_eq_true,
      List.all_eq_true, decide_eq_true_eq]
    constructor
    · rintro ⟨⟨h1, h2⟩, h3⟩
      exact ⟨c, cs, rfl, h1, h2, fun d hd => by
        have := h3 d hd
        simpa [wordCharW, Bool.or_eq_true, decide_eq_true_eq, or_assoc] using this⟩
    · rintro ⟨c', cs', heq, h1, h2, h3⟩
      obtain ⟨rfl, rfl⟩ : c = c' ∧ cs = cs' := by
        injection heq with hc hcs
        exact ⟨hc, hcs⟩
      exact ⟨⟨h1, h2⟩, fun d hd => by
        have := h3 d hd
        simpa [wordCharW, Bool.or_eq_true, decide_eq_true_eq, or_assoc] using this⟩

/-- The value is numeric (int or float). -/
def isNumV : Value → Bool
  | .int _ => true
  | .float _ => true
  | _ => false

/-- Well-formedness of one `avg` argument in the claim's scope: a bare
numeric value, the bare sentinel, or a 2-tuple of a numeric-or-sentinel
score and a numeric weight. -/
def wfAvgArg : Value → Bool
  | .tup [s, w] => (isNumV s || isNothingV s) && isNumV w
  | v => isNumV v || isNothingV v

/-- Well-formedness of an `avg` argument list. -/
def wfAvgArgs (args : List Value) : Bool := args.all wfAvgArg

/-- Modelled from the claim's words: the kept `(score, weight)` reading of
one argument — a bare value counts with weight 1, a pair as itself, and an
entry whose score is the sentinel is skipped (`none`). -/
def specEntry : Value → Option (Rat × Rat)
  | .tup [s, w] =>
    if isNothingV s then none
    else
      match toQ s, toQ w with
      | some qs, some qw => some (qs, qw)
      | _, _ => none
  | .nothing => none
  | v =>
    match toQ v with
    | some q => some (q, 1)
    | none => none

/-- The numerator contribution of one argument under the claim's reading. -/
def entryNum (a : Value) : Rat :=
  match specEntry a with
  | some e => e.1 * e.2
  | none => 0

/-- The denominator contribution of one argument under the claim's reading. -/
def entryDen (a : Value) : Rat :=
  match specEntry a with
  | some e => e.2
  | none => 0

/-- Modelled from the claim's words: the sum of score times weight over the
kept entries. -/
def specNum : List Value → Rat
  | [] => 0
  | a :: rest => entryNum a + specNum rest

/-- Modelled from the claim's words: the sum of the kept weights. -/
def specDen : List Value → Rat
  | [] => 0
  | a :: rest => entryDen a + specDen rest

theorem addV_toQ (a b : Value) (qa qb : Rat)
    (ha : toQ a = some qa) (hb : toQ b = some qb) :
    ∃ c, addV a b = .ok c ∧ toQ c = some (qa + qb) := by
  cases a <;> cases b <;> simp_all [toQ, addV]

theorem mulV_toQ (a b : Value) (qa qb : Rat)
    (ha : toQ a = some qa) (hb : toQ b = some qb) :
    ∃ c, mulV a b = .ok c ∧ toQ c = some (qa * qb) := by
  cases a <;> cases b <;> simp_all [toQ, mulV]

theorem divV_toQ (a b : Value) (qa qb : Rat)
    (ha : toQ a = some qa) (hb : toQ b = some qb) (hz : qb ≠ 0) :
    divV a b = .ok (.float (qa / qb)) := by
  cases a <;> cases b <;> simp_all [toQ, divV] <;>
    (intro h; apply hz; rw [← hb, h]; simp)

theorem pyTruthy_toQ (d : Value) (qd : Rat) (hd : toQ d = some qd) :
    pyTruthy d = true ↔ qd ≠ 0 := by
  cases d <;> simp_all [toQ, pyTruthy]
  rw [← hd]; simp

/-- The `avg` loop, related to the claim's sums: starting from numeric
accumulators reading `qn` and `qd`, a well-formed argument list drives the
loop to the weighted mean of `qn`/`qd` plus the kept contributions, with the
sentinel when the final denominator reads zero. -/
theorem avgGo_spec (args : List Value) (hw : wfAvgArgs args = true) :
    ∀ (num den : Value) (qn qd : Rat), toQ num = some qn → toQ den = some qd →
      avgGo args num den =
        (if qd + specDen args = 0 then .ok Value.nothing
         else .ok (.float ((qn + specNum args) / (qd + specDen args)))) := by
  induction args with
  | nil =>
    intro num den qn qd hn hd
    by_cases hz : qd = 0
    · have ht : pyTruthy den = false := by
        have := pyTruthy_toQ den qd hd
        simp [hz] at this
        simpa using this
      simp [avgGo, specNum, specDen, ht, hz]
    · have ht : pyTruthy den = true := (pyTruthy_toQ den qd hd).mpr hz
      simp [avgGo, specNum, specDen, ht, hz, divV_toQ num den qn qd hn hd hz]
  | cons a rest ih =>
    intro num den qn qd hn hd
    have hwa : wfAvgArg a = true ∧ wfAvgArgs rest = true := by
      simpa [wfAvgArgs, List.all_cons] using hw
    have hskip : ∀ h : avgGo (a :: rest) num den = avgGo rest num den,
        specEntry a = none →
        avgGo (a :: rest) num den =
          (if qd + specDen (a :: rest) = 0 then .ok Value.nothing
           else .ok (.float ((qn + specNum (a :: rest)) / (qd + specDen (a :: rest))))) := by
      intro h he
      rw [h, ih hwa.2 num den qn qd hn hd]
      simp [specNum, specDen, entryNum, entryDen, he]
    have hkeep : ∀ (s w : Value) (qs qw : Rat),
        toQ s = some qs → toQ w = some qw →
        avgUnpack a = .ok (s, w) → isNothingV s = false →
        specEntry a = some (qs, qw) →
        avgGo (a :: rest) num den =
          (if qd + specDen (a :: rest) = 0 then .ok Value.nothing
           else .ok (.float ((qn + specNum (a :: rest)) / (qd + specDen (a :: rest))))) := by
      intro s w qs qw hs hw' hu hns he
      obtain ⟨den', hden, hdenq⟩ := addV_toQ den w qd qw hd hw'
      obtain ⟨prod, hprod, hprodq⟩ := mulV_toQ s w qs qw hs hw'
      obtain ⟨num', hnum, hnumq⟩ := addV_toQ num prod qn (qs * qw) hn hprodq
      have hstep : avgGo (a :: rest) num den = avgGo rest num' den' := by
        simp [avgGo, hu, hns, hden, hprod, hnum]
      rw [hstep, ih hwa.2 num' den' (qn + qs * qw) (qd + qw) hnumq hdenq]
      have hd1 : qd + specDen (a :: rest) = qd + qw + specDen rest := by
        simp [specDen, entryDen, he]; ring
      have hn1 : qn + specNum (a :: rest) = qn + qs * qw + specNum rest := by
        simp [specNum, entryNum, he]; ring
      rw [hd1, hn1]
    match a, hwa.1 with
    | .nothing, _ =>
      exact hskip (by simp [avgGo, avgUnpack, isNothingV]) (by simp [specEntry])
    | .int n, _ =>
      exact hkeep (.int n) (.int 1) (n : Rat) 1 rfl (by simp [toQ]) rfl rfl
        (by simp [specEntry, toQ])
    | .float q, _ =>
      exact hkeep (.float q) (.int 1) q 1 rfl (by simp [toQ]) rfl rfl
        (by simp [specEntry, toQ])
    | .tup [s, w], hwf =>
      have hs' : (isNumV s || isNothingV s) = true ∧ isNumV w = true := by
        simpa [wfAvgArg] using hwf
      by_cases hns : isNothingV s = true
      · have hsn : s = .nothing := by cases s <;> simp_all [isNothingV]
        subst hsn
        exact hskip (by simp [avgGo, avgUnpack, isNothingV])
          (by simp [specEntry, isNothingV])
      · have hnum : isNumV s = true := by
          rcases Bool.or_eq_true_iff.mp hs'.1 with h | h
          · exact h
          · exact absurd h hns
        obtain ⟨qs, hqs⟩ : ∃ qs, toQ s = some qs := by
          cases s <;> first | exact ⟨_, rfl⟩ | simp [isNumV] at hnum
        have hwnum : isNumV w = true := hs'.2
        obtain ⟨qw, hqw⟩ : ∃ qw, toQ w = some qw := by
          cases w <;> first | exact ⟨_, rfl⟩ | simp [isNumV] at hwnum
        have hnsf : isNothingV s = false := by simpa using hns
        exact hkeep s w qs qw hqs hqw (by simp [avgUnpack]) hnsf
          (by simp [specEntry, hnsf, hqs, hqw])

/-- C9 counterexample. The claim asserts the result is the weighted mean of
the entries whose score is not the sentinel, with the sentinel only "when
every entry is skipped"; but `avg((5, 0))` keeps its single entry (score 5,
weight 0) and still returns the sentinel, because the final
`if denominator` truthiness guard sees the zero weight sum — there is no
weighted mean here at all (it would be 0/0). -/
theorem c9_avg_counterexample :
    avg [.tup [.int 5, .int 0]] = .ok Value.nothing ∧
    specEntry (.tup [.int 5, .int 0]) = some (5, 0) ∧
    ([Value.tup [.int 5, .int 0]].filterMap specEntry) ≠ [] := by
  refine ⟨?_, ?_, ?_⟩
  · norm_num [avg, avgGo, avgUnpack, isNothingV, addV, mulV, divV, pyTruthy]
  · norm_num [specEntry, toQ, isNothingV]
  · norm_num [specEntry, toQ, isNothingV, List.filterMap]

/-- C9 as amended: over well-formed arguments (bare numerics, bare
sentinels, or pairs of a numeric-or-sentinel score and a numeric weight),
`avg` returns the float weighted mean — sum of score times weight over sum
of weights of the kept entries, a bare value counting with weight 1,
sentinel-score entries skipped — whenever the kept weights sum to a nonzero
value, and the sentinel whenever that sum is zero (in particular when every
entry is skipped, and also for kept entries whose weights cancel to zero).
The claim's own examples follow: `avg((8,1),(9,2))` is 26/3 = 8.666...,
`avg(Nothing, 10)` is the float 10, `avg(Nothing, Nothing)` is the
sentinel. -/
theorem c9_avg_weighted_mean_amended (args : List Value)
    (h : wfAvgArgs args = true) :
    avg args =
      (if specDen args = 0 then .ok Value.nothing
       else .ok (.float (specNum args / specDen args))) ∧
    avg [.tup [.int 8, .int 1], .tup [.int 9, .int 2]] = .ok (.float (26/3)) ∧
    avg [.nothing, .int 10] = .ok (.float 10) ∧
    avg [.nothing, .nothing] = .ok Value.nothing := by
  refine ⟨?_, ?_, ?_, ?_⟩
  · have hz : toQ (Value.int 0) = some 0 := by simp [toQ]
    have := avgGo_spec args h (.int 0) (.int 0) 0 0 hz hz
    simpa [avg, zero_add] using this
  · norm_num [avg, avgGo, avgUnpack, isNothingV, addV, mulV, divV, pyTruthy]
  · norm_num [avg, avgGo, avgUnpack, isNothingV, addV, mulV, divV, pyTruthy]
  · norm_num [avg, avgGo, avgUnpack, isNothingV, addV, mulV, divV, pyTruthy]

/-- Witness for C9 at the claim's own two-pair argument list. -/
theorem c9_avg_weighted_mean_amended_witness :
    (wfAvgArgs [.tup [.int 8, .int 1], .tup [.int 9, .int 2]] = true) ∧
    (avg [.tup [.int 8, .int 1], .tup [.int 9, .int 2]] =
      (if specDen [.tup [.int 8, .int 1], .tup [.int 9, .int 2]] = 0
       then .ok Value.nothing
       else .ok (.float
         (specNum [.tup [.int 8, .int 1], .tup [.int 9, .int 2]] /
          specDen [.tup [.int 8, .int 1], .tup [.int 9, .int 2]]))) ∧
     avg [.tup [.int 8, .int 1], .tup [.int 9, .int 2]] = .ok (.float (26/3)) ∧
     avg [.nothing, .int 10] = .ok (.float 10) ∧
     avg [.nothing, .nothing] = .ok Value.nothing) :=
  ⟨rfl, c9_avg_weighted_mean_amended _ rfl⟩

/-- Tokens of the grammar (config50.py lines 16-36). The arpeggio parser is
scannerless; this model parses over a token list whose items correspond
one-to-one to the grammar's terminals: punctuation, operator strings
(`opTok`), number literals already converted by the lexical rule of
`visit_number` (integer unless the literal has a dot), string literals
already unescaped by `visit_string`, and WORD matches (`wordTok`) used for
identifiers, function names and assignment targets. The reserved literal
`Nothing` is a WORD-shaped token the atom rule intercepts first. -/
inductive Tok where
  | lp
  | rp
  | comma
  | assignTok
  | opTok (s : String)
  | numTok (v : Value)
  | strLitTok (s : String)
  | wordTok (s : String)

/-- Parse tree mirroring the grammar rules of config50.py lines 27-35; chain
nodes keep the operator terminals as the strings the visitor will see. -/
inductive Expr where
  | lit (v : Value)
  | identE (x : String)
  | callE (f : String) (args : List Expr)
  | tupleE (elems : List Expr) (trailing : Bool)
  | factorE (sign : Option Sign) (e : Expr)
  | termE (first : Expr) (rest : List (String × Expr))
  | arithE (first : Expr) (rest : List (String × Expr))
  | cmpE (first : Expr) (rest : List (String × Expr))
  | assignE (name : Option String) (e : Expr)

mutual
/-- PEG rule `assignment := Optional(_(WORD), "="), comparison`
(config50.py line 35). The optional prefix matches only when a WORD token is
directly followed by `=`; as in a PEG sequence, once it has matched there is
no backtracking out of it. All parse functions thread a fuel argument
(first) that strictly decreases on every nested rule invocation; any ample
value gives the grammar's behaviour. -/
def parseAssignment : Nat → List Tok → Option (Expr × List Tok)
  | 0, _ => none
  | fuel + 1, toks =>
    match toks with
    | .wordTok n :: .assignTok :: rest =>
      match parseComparison fuel rest with
      | some (e, rem) => some (.assignE (some n) e, rem)
      | none => none
    | _ =>
      match parseComparison fuel toks with
      | some (e, rem) => some (.assignE none e, rem)
      | none => none

/-- PEG rule `comparison := arith, ZeroOrMore([ops], arith)` (line 34). -/
def parseComparison : Nat → List Tok → Option (Expr × List Tok)
  | 0, _ => none
  | fuel + 1, toks =>
    match parseArith fuel toks with
    | none => none
    | some (first, rem) =>
      let out := parseCmpRest fuel rem
      some (.cmpE first out.1, out.2)

/-- The greedy `ZeroOrMore` tail of `comparison`: each iteration matches one
of the six operator strings then an arith, and a failed iteration is
backtracked wholly. -/
def parseCmpRest : Nat → List Tok → List (String × Expr) × List Tok
  | 0, toks => ([], toks)
  | fuel + 1, toks =>
    match toks with
    | .opTok s :: rest =>
      if s ∈ ["<=", ">=", "==", "!=", "<", ">"] then
        match parseArith fuel rest with
        | some (e, rem) =>
          let out := parseCmpRest fuel rem
          ((s, e) :: out.1, out.2)
        | none => ([], toks)
      else ([], toks)
    | _ => ([], toks)

/-- PEG rule `arith := term, ZeroOrMore(["+", "-"], term)` (line 33). -/
def parseArith : Nat → List Tok → Option (Expr × List Tok)
  | 0, _ => none
  | fuel + 1, toks =>
    match parseTerm fuel toks with
    | none => none
    | some (first, rem) =>
      let out := parseArithRest fuel rem
      some (.arithE first out.1, out.2)

/-- The greedy `ZeroOrMore` tail of `arith`. -/
def parseArithRest : Nat → List Tok → List (String × Expr) × List Tok
  | 0, toks => ([], toks)
  | fuel + 1, toks =>
    match toks with
    | .opTok s :: rest =>
      if s ∈ ["+", "-"] then
        match parseTerm fuel rest with
        | some (e, rem) =>
          let out := parseArithRest fuel rem
          ((s, e) :: out.1, out.2)
        | none => ([], toks)
      else ([], toks)
    | _ => ([], toks)

/-- PEG rule `term := factor, ZeroOrMore(["*", "//", "/"], factor)`
(line 32). -/
def parseTerm : Nat → List Tok → Option (Expr × List Tok)
  | 0, _ => none
  | fuel + 1, toks =>
    match parseFactor fuel toks with
    | none => none
    | some (first, rem) =>
      let out := parseTermRest fuel rem
      some (.termE first out.1, out.2)

/-- The greedy `ZeroOrMore` tail of `term`. -/
def parseTermRest : Nat → List Tok → List (String × Expr) × List Tok
  | 0, toks => ([], toks)
  | fuel + 1, toks =>
    match toks with
    | .opTok s :: rest =>
      if s ∈ ["*", "//", "/"] then
        match parseFactor fuel rest with
        | some (e, rem) =>
          let out := parseTermRest fuel rem
          ((s, e) :: out.1, out.2)
        | none => ([], toks)
      else ([], toks)
    | _ => ([], toks)

/-- PEG rule `factor := Optional(["+", "-"]), [("(", assignment, ")"), atom]`
(line 31): the parenthesized sub-expression alternative is tried before
`atom`, so `(1)` is a grouping; when it fails — e.g. at `(1,` where no `)`
follows the assignment — the ordered choice backtracks to `atom`, whose own
last alternative is the tuple rule. -/
def parseFactor : Nat → List Tok → Option (Expr × List Tok)
  | 0, _ => none
  | fuel + 1, toks =>
    let signSplit : Option Sign × List Tok :=
      match toks with
      | .opTok "+" :: r => (some .plusS, r)
      | .opTok "-" :: r => (some .minusS, r)
      | _ => (none, toks)
    match signSplit.2 with
    | .lp :: r1 =>
      match parseAssignment fuel r1 with
      | some (e, .rp :: r2) => some (.factorE signSplit.1 e, r2)
      | _ =>
        match parseAtom fuel signSplit.2 with
        | some (e, rem) => some (.factorE signSplit.1 e, rem)
        | none => none
    | _ =>
      match parseAtom fuel signSplit.2 with
      | some (e, rem) => some (.factorE signSplit.1 e, rem)
      | none => none

/-- PEG rule `atom := [nothing, string, function, number, identifier,
tuple_]` (line 30), alternatives in source order: the reserved literal wins
over an identifier reading of the same WORD, and a WORD followed by `(` is
a function call. -/
def parseAtom : Nat → List Tok → Option (Expr × List Tok)
  | 0, _ => none
  | fuel + 1, toks =>
    match toks with
    | .wordTok "Nothing" :: r => some (.lit .nothing, r)
    | .strLitTok s :: r => some (.lit (.str s), r)
    | .numTok v :: r => some (.lit v, r)
    | .wordTok f :: .lp :: r1 =>
      match parseArglist fuel r1 with
      | some (args, .rp :: r2) => some (.callE f args, r2)
      | some (_, _) => none
      | none =>
        match r1 with
        | .rp :: r2 => some (.callE f [], r2)
        | _ => none
    | .wordTok x :: r => some (.identE x, r)
    | .lp :: r1 =>
      match parseAssignment fuel r1 with
      | none => none
      | some (e1, r2) =>
        let out := parseTupleRest fuel r2
        let commaSplit : Bool × List Tok :=
          match out.2 with
          | .comma :: r => (true, r)
          | _ => (false, out.2)
        match commaSplit.2 with
        | .rp :: r5 => some (.tupleE (e1 :: out.1) commaSplit.1, r5)
        | _ => none
    | _ => none

/-- The shared `ZeroOrMore(",", assignment)` tail of `tuple_` (line 27) and
`arglist` (line 28): a comma whose following assignment fails is backtracked
and ends the repetition (leaving, in a tuple, a trailing comma for the
`Optional(",")`). -/
def parseTupleRest : Nat → List Tok → List Expr × List Tok
  | 0, toks => ([], toks)
  | fuel + 1, toks =>
    match toks with
    | .comma :: r1 =>
      match parseAssignment fuel r1 with
      | some (e, r2) =>
        let out := parseTupleRest fuel r2
        (e :: out.1, out.2)
      | none => ([], toks)
    | _ => ([], toks)

/-- PEG rule `arglist := assignment, ZeroOrMore(",", assignment)`
(line 28). -/
def parseArglist : Nat → List Tok → Option (List Expr × List Tok)
  | 0, _ => none
  | fuel + 1, toks =>
    match parseAssignment fuel toks with
    | some (e1, r1) =>
      let out := parseTupleRest fuel r1
      some (e1 :: out.1, out.2)
    | none => none
end

/-- The function registry the evaluator consults (`self.functions`,
config50.py line 60). The dict of stdlib.py lines 83-91 is modelled for the
entries the claims exercise — `int`, `float`, `str` (each the unary lambda
calling the magic method) and `avg`; the remaining entries (`ceil`, `floor`,
`max`, `min`, `round`, `score`) are outside every claim and are left
unmodelled, which only makes `lookupRegistry` undefined on names no claim
mentions. -/
def lookupRegistry : String → Option (List Value → Except Err Value) :=
  fun name =>
    if name = "int" then
      some (fun args => match args with | [v] => intFn v | _ => .error .typeError)
    else if name = "float" then
      some (fun args => match args with | [v] => floatFn v | _ => .error .typeError)
    else if name = "str" then
      some (fun args => match args with | [v] => .ok (strFn v) | _ => .error .typeError)
    else if name = "avg" then some avg
    else none

mutual
/-- Bottom-up evaluation of a parse tree, mirroring `visit_parse_tree`
driving the `Config50Visitor` methods: children are evaluated left to right
(threading the symbol table, so an assignment inside a tuple or argument
list is visible to its right siblings), then the node's visit method runs on
the children list. Errors propagate and abort, with the table as mutated so
far. Fuel (first argument) bounds the recursion depth; ample fuel gives the
visitor's behaviour. -/
def evalE (reg : String → Option (List Value → Except Err Value)) :
    Nat → Expr → SymTable → Except Err Value × SymTable
  | 0, _, st => (.error .outOfFuel, st)
  | fuel + 1, e, st =>
    match e with
    | .lit v => (.ok v, st)
    | .identE x => (visit_identifier x st, st)
    | .callE f args =>
      match evalList reg fuel args st with
      | (.error er, st') => (.error er, st')
      | (.ok vs, st') =>
        match reg f with
        | none => (.error .unknownFunction, st')
        | some fn => (fn vs, st')
    | .tupleE elems trailing =>
      match evalList reg fuel elems st with
      | (.error er, st') => (.error er, st')
      | (.ok vs, st') =>
        (.ok (visit_tuple_ (vs ++ if trailing then [Value.str ","] else [])), st')
    | .factorE sign inner =>
      match evalE reg fuel inner st with
      | (.error er, st') => (.error er, st')
      | (.ok v, st') => (visit_factor sign v, st')
    | .termE first rest =>
      match evalE reg fuel first st with
      | (.error er, st') => (.error er, st')
      | (.ok v0, st') =>
        match evalPairs reg fuel rest st' with
        | (.error er, st'') => (.error er, st'')
        | (.ok ps, st'') =>
          (visit_term (v0 :: ps.flatMap (fun p => [Value.str p.1, p.2])), st'')
    | .arithE first rest =>
      match evalE reg fuel first st with
      | (.error er, st') => (.error er, st')
      | (.ok v0, st') =>
        match evalPairs reg fuel rest st' with
        | (.error er, st'') => (.error er, st'')
        | (.ok ps, st'') =>
          (visit_arith (v0 :: ps.flatMap (fun p => [Value.str p.1, p.2])), st'')
    | .cmpE first rest =>
      match evalE reg fuel first st with
      | (.error er, st') => (.error er, st')
      | (.ok v0, st') =>
        match evalPairs reg fuel rest st' with
        | (.error er, st'') => (.error er, st'')
        | (.ok ps, st'') =>
          (visit_comparison (v0 :: ps.flatMap (fun p => [Value.str p.1, p.2])), st'')
    | .assignE name inner =>
      match evalE reg fuel inner st with
      | (.error er, st') => (.error er, st')
      | (.ok v, st') => visit_assignment name v st'

/-- Left-to-right evaluation of a list of sub-expressions (tuple elements,
call arguments), threading the symbol table. -/
def evalList (reg : String → Option (List Value → Except Err Value)) :
    Nat → List Expr → SymTable → Except Err (List Value) × SymTable
  | _, [], st => (.ok [], st)
  | 0, _ :: _, st => (.error .outOfFuel, st)
  | fuel + 1, e :: rest, st =>
    match evalE reg fuel e st with
    | (.error er, st') => (.error er, st')
    | (.ok v, st') =>
      match evalList reg fuel rest st' with
      | (.error er, st'') => (.error er, st'')
      | (.ok vs, st'') => (.ok (v :: vs), st'')

/-- Left-to-right evaluation of a chain tail's operand expressions, keeping
each operator terminal with its operand's value. -/
def evalPairs (reg : String → Option (List Value → Except Err Value)) :
    Nat → List (String × Expr) → SymTable → Except Err (List (String × Value)) × SymTable
  | _, [], st => (.ok [], st)
  | 0, _ :: _, st => (.error .outOfFuel, st)
  | fuel + 1, (s, e) :: rest, st =>
    match evalE reg fuel e st with
    | (.error er, st') => (.error er, st')
    | (.ok v, st') =>
      match evalPairs reg fuel rest st' with
      | (.error er, st'') => (.error er, st'')
      | (.ok vs, st'') => (.ok ((s, v) :: vs), st'')
end

/-- Parse one statement with the grammar rooted at `assignment` (the single
statement contract of spec §4.1, as the REPL front-end uses it), require the
whole input to be consumed, and evaluate it against an empty symbol table
with the modelled registry; `none` is a parse failure. -/
def runStatement (toks : List Tok) : Option (Except Err Value) :=
  match parseAssignment (4 * toks.length + 20) toks with
  | some (e, []) => some (evalE lookupRegistry (4 * toks.length + 20) e []).1
  | _ => none

/-- C8. The parser disambiguates parentheses by the presence of a comma:
`(1, 2,)` (with optional trailing comma) parses and evaluates to the tuple
(1, 2); `(1,)` to the one-element tuple (1,); and `(1)` — no comma — is a
grouping that evaluates to the plain integer 1, because the factor rule
tries the parenthesized sub-expression before the tuple alternative and only
falls back to the tuple rule when no `)` directly follows the inner
expression. -/
theorem c8_tuple_grouping_disambiguation :
    runStatement [.lp, .numTok (.int 1), .comma, .numTok (.int 2), .comma, .rp]
      = some (.ok (.tup [.int 1, .int 2])) ∧
    runStatement [.lp, .numTok (.int 1), .comma, .rp]
      = some (.ok (.tup [.int 1])) ∧
    runStatement [.lp, .numTok (.int 1), .rp]
      = some (.ok (.int 1)) :=
  ⟨rfl, rfl, rfl⟩
